import Mathlib

/-!
# Verification of the Document Intelligence Agent pipeline

A shallow embedding of `document_intelligence_agent.py`
(`DocumentIntelligenceAgent`): the data model, the build steps run by
`initialize()`, and the public operations `ask_question`, `search_documents`
and `get_stats`.  External black-box services (the PDF text extractor, the
HuggingFace embedding model, the Chroma vector database, the OpenAI chat
model) are modelled from the contracts stated in the specification; every
piece of control flow that lives in the repository itself (ordering of the
build steps, the existence checks, the error paths, the statistics updates)
is translated directly from the source.
-/

/-- A LangChain `Document`: a unit of text with provenance metadata
(`RawDocument` of the spec; one per page of each PDF file).  Text is a list
of characters so chunking can be reasoned about positionally. -/
structure Doc where
  text : List Char
  source : String
  page : Nat
deriving DecidableEq, Repr

/-- The `self.stats` dictionary of the agent. -/
structure Stats where
  documents_loaded : Nat
  chunks_created : Nat
  processing_time : Nat
deriving DecidableEq, Repr

/-- A persisted Chroma vector index, modelled by the chunks it stores
(the embedding vector of each stored chunk is opaque; similarity scoring is
supplied externally as a function when querying). -/
structure VIndex where
  entries : List Doc
deriving DecidableEq, Repr

/-- The error taxonomy of spec §7.  `notFound` stands for the
`FileNotFoundError` raised by `load_documents`, `configuration` for the
`ValueError` raised by `setup_llm` when `OPENAI_API_KEY` is missing or
empty, `invalidState` for the `RuntimeError` raised by `ask_question` /
`search_documents` before initialization. -/
inductive AgentError where
  | notFound
  | configuration
  | invalidState
  | external (msg : String)
deriving DecidableEq, Repr

/-- Observable external effects emitted while building the vector store:
`embedChunks n` records that the `n` freshly computed chunks were embedded
and stored (the `Chroma.from_documents` branch of `create_vector_store`). -/
inductive Event where
  | embedChunks (n : Nat)
deriving DecidableEq, Repr

/-- The mutable fields of a `DocumentIntelligenceAgent` instance, as set up
by `__init__`: the five component slots (all `None` until built) and the
statistics dictionary.  `retriever` keeps the index together with the fixed
result count `k` passed to `as_retriever`. -/
structure AgentState where
  chunk_size : Nat
  chunk_overlap : Nat
  embeddings : Option Unit
  vector_store : Option VIndex
  retriever : Option (VIndex × Nat)
  llm : Option Unit
  rag_chain : Option Unit
  stats : Stats
deriving Repr

/-- The environment a run of the agent observes: the data directory (its
existence and the page lists of the PDF files it holds), the
`OPENAI_API_KEY` variable, the persisted index found at
`vector_store_path/chroma.sqlite3` if any, the wall-clock time measured by
`create_vector_store`, the outcome of invoking the RAG chain on a question,
and the similarity score the vector database assigns to a stored chunk for
a query. -/
structure Env where
  dirExists : Bool
  pdfFiles : List (List Doc)
  apiKey : Option String
  persisted : Option VIndex
  procTime : Nat
  chainResult : String → Except String String
  score : String → Doc → Int

/-- Modelled from the spec: the text splitter
(`RecursiveCharacterTextSplitter`, an external LangChain component) is
described in §3 as "sliding a window of `chunk_size` characters with
`chunk_overlap` characters of overlap across the text of each RawDocument"; the
boundary-preference refinement of §4.2 is provider-defined and not part of
this repository.  `splitGo` emits the window starting at the current
position and recurses at stride `csize - cover`; fuel bounds the recursion
and equals the text length at the top-level call, which suffices whenever
`cover < csize`. -/
def splitGo (csize cover : Nat) : Nat → List Char → List (List Char)
  | 0, s => if s.isEmpty then [] else [s]
  | fuel + 1, s =>
    if s.length ≤ csize then [s]
    else s.take csize :: splitGo csize cover fuel (s.drop (csize - cover))

/-- Modelled from the spec: split one text into chunks (§3, §4.2); produces
zero chunks only for empty input text (§4.2). -/
def splitText (csize cover : Nat) (s : List Char) : List (List Char) :=
  if s.isEmpty then [] else splitGo csize cover s.length s

/-- The `split_documents` call of `create_chunks`: split the text of every
document, each chunk keeping the provenance metadata of its document. -/
def splitDocuments (csize cover : Nat) (docs : List Doc) : List Doc :=
  docs.flatMap (fun d => (splitText csize cover d.text).map
    (fun t => { d with text := t }))

/-- Comparison used to order scored results: `a` before `b` when the score
of `a` is at least the score of `b` (non-increasing similarity). -/
def scoreGE (a b : Doc × Int) : Prop := b.2 ≤ a.2

instance : DecidableRel scoreGE :=
  fun a b => inferInstanceAs (Decidable (b.2 ≤ a.2))

instance : IsTotal (Doc × Int) scoreGE :=
  ⟨fun a b => (Int.le_total b.2 a.2)⟩

instance : IsTrans (Doc × Int) scoreGE :=
  ⟨fun _ _ _ hab hbc => le_trans hbc hab⟩

/-- Modelled from the spec: the similarity query of the vector database
(Chroma, external) per the §4.4 contract — score every stored entry,
order by decreasing similarity, return at most `k` scored results. -/
def VIndex.query (idx : VIndex) (score : Doc → Int) (k : Nat) :
    List (Doc × Int) :=
  (List.insertionSort scoreGE (idx.entries.map (fun d => (d, score d)))).take k

/-- `DocumentIntelligenceAgent.__init__`: component slots `None`, zeroed
statistics. -/
def initAgent (csize cover : Nat) : AgentState :=
  { chunk_size := csize
    chunk_overlap := cover
    embeddings := none
    vector_store := none
    retriever := none
    llm := none
    rag_chain := none
    stats := { documents_loaded := 0, chunks_created := 0, processing_time := 0 } }

/-- `load_documents`: raise `FileNotFoundError` if the data directory is
missing, or if it holds no PDF files; otherwise concatenate the pages of
every PDF file (one `Document` per page) and record their number in
`stats["documents_loaded"]` (written here with double quotes). -/
def load_documents (env : Env) (st : AgentState) :
    Except AgentError (AgentState × List Doc) :=
  if !env.dirExists then .error .notFound
  else if env.pdfFiles.isEmpty then .error .notFound
  else
    let documents := env.pdfFiles.flatten
    .ok ({ st with stats := { st.stats with documents_loaded := documents.length } },
         documents)

/-- `create_chunks`: split the documents with the configured
`chunk_size` / `chunk_overlap` and record the chunk count in
`stats["chunks_created"]`. -/
def create_chunks (st : AgentState) (documents : List Doc) :
    AgentState × List Doc :=
  let chunks := splitDocuments st.chunk_size st.chunk_overlap documents
  ({ st with stats := { st.stats with chunks_created := chunks.length } }, chunks)

/-- `setup_embeddings`: instantiate the HuggingFace embedding model
(opaque handle). -/
def setup_embeddings (st : AgentState) : AgentState :=
  { st with embeddings := some () }

/-- `create_vector_store`: ensure embeddings exist, then — if
`vector_store_path/chroma.sqlite3` already exists — load the persisted
index as is (the supplied chunks are not embedded, not stored);
otherwise build a new index from exactly the supplied chunks
(`Chroma.from_documents`, emitting the embedding event).  Either way
`stats["processing_time"]` is set to the elapsed time. -/
def create_vector_store (env : Env) (st : AgentState) (chunks : List Doc) :
    AgentState × List Event :=
  let st1 := if st.embeddings.isNone then setup_embeddings st else st
  match env.persisted with
  | some idx =>
    ({ st1 with vector_store := some idx
                stats := { st1.stats with processing_time := env.procTime } }, [])
  | none =>
    ({ st1 with vector_store := some ⟨chunks⟩
                stats := { st1.stats with processing_time := env.procTime } },
     [Event.embedChunks chunks.length])

/-- `setup_retriever`: wrap the vector store as a similarity retriever with
fixed result count `k`. -/
def setup_retriever (st : AgentState) (k : Nat) : AgentState :=
  { st with retriever := st.vector_store.map (fun idx => (idx, k)) }

/-- `setup_llm`: read `OPENAI_API_KEY`; a missing or empty value raises
(`ValueError`, the `ConfigurationError` of the spec), otherwise the chat model
is instantiated. -/
def setup_llm (env : Env) (st : AgentState) : Except AgentError AgentState :=
  match env.apiKey with
  | none => .error .configuration
  | some key => if key = "" then .error .configuration else .ok { st with llm := some () }

/-- `create_rag_chain`: assemble the retrieval-augmented generation chain. -/
def create_rag_chain (st : AgentState) : AgentState :=
  { st with rag_chain := some () }

/-- `DocumentIntelligenceAgent.initialize`: run the build steps in source
order — `load_documents`, `create_chunks`, `setup_embeddings`,
`create_vector_store`, `setup_retriever` (k = 3), `setup_llm`,
`create_rag_chain`.  A failing step re-raises after the except block, so
the result is the state as mutated so far, the error if any, and the
external events emitted before the failure. -/
def initializeAgent (env : Env) (st : AgentState) :
    AgentState × Option AgentError × List Event :=
  match load_documents env st with
  | .error e => (st, some e, [])
  | .ok (st1, documents) =>
    let r2 := create_chunks st1 documents
    let st3 := setup_embeddings r2.1
    let r4 := create_vector_store env st3 r2.2
    let st5 := setup_retriever r4.1 3
    match setup_llm env st5 with
    | .error e => (st5, some e, r4.2)
    | .ok st6 => (create_rag_chain st6, none, r4.2)

/-- `ask_question`: raise `RuntimeError` (`InvalidStateError`) when the RAG
chain has not been built; otherwise invoke the chain, and turn any
exception it raises into the string
`"Error processing question: " ++ message` returned as the answer.  The
method assigns no attribute, so the state is returned unchanged. -/
def ask_question (env : Env) (st : AgentState) (question : String) :
    AgentState × Except AgentError String :=
  if st.rag_chain.isNone then (st, .error .invalidState)
  else
    match env.chainResult question with
    | .ok a => (st, .ok a)
    | .error e => (st, .ok ("Error processing question: " ++ e))

/-- `search_documents`: raise `RuntimeError` (`InvalidStateError`) when the
vector store has not been built; otherwise return the documents of the
similarity query of the vector store, scores stripped.  The method assigns no
attribute, so the state is returned unchanged. -/
def search_documents (env : Env) (st : AgentState) (query : String) (k : Nat) :
    AgentState × Except AgentError (List Doc) :=
  match st.vector_store with
  | none => (st, .error .invalidState)
  | some idx => (st, .ok ((idx.query (env.score query) k).map Prod.fst))

/-- `get_stats`: return `self.stats.copy()` — a value independent of the
internal statistics record of the agent, so later caller-side changes to the
returned mapping cannot reach the agent.  No attribute is assigned. -/
def get_stats (st : AgentState) : AgentState × Stats :=
  (st, st.stats)

/-- A public read operation performed after initialization. -/
inductive Op where
  | ask (q : String)
  | search (q : String) (k : Nat)
  | getStats
deriving Repr

/-- The agent state resulting from one public read operation. -/
def runOp (env : Env) (st : AgentState) : Op → AgentState
  | .ask q => (ask_question env st q).1
  | .search q k => (search_documents env st q k).1
  | .getStats => (get_stats st).1

/-- The agent state after a sequence of public read operations. -/
def runOps (env : Env) (st : AgentState) (ops : List Op) : AgentState :=
  ops.foldl (runOp env) st

/-- A one-page PDF document used in concrete runs. -/
def docA : Doc := { text := ['a'], source := "a.pdf", page := 0 }

/-- A second one-page PDF document used in concrete runs. -/
def docB : Doc := { text := ['b'], source := "b.pdf", page := 1 }

/-- A well-formed environment: existing data directory with two one-page
PDF files, a credential present, no persisted index. -/
def envW : Env :=
  { dirExists := true
    pdfFiles := [[docA], [docB]]
    apiKey := some "sk"
    persisted := none
    procTime := 0
    chainResult := fun _ => .ok "ans"
    score := fun _ d => Int.ofNat d.page }

/-- Valid documents but no `OPENAI_API_KEY` in the environment. -/
def envNoKey : Env := { envW with pdfFiles := [[docA]], apiKey := none }

/-- The data directory does not exist. -/
def envNoDir : Env := { envW with dirExists := false }

/-- A persisted index (holding only `docB`) already exists at the vector
store path. -/
def envPer : Env := { envW with persisted := some ⟨[docB]⟩ }

/-- A well-formed environment whose RAG chain invocation raises. -/
def envErr : Env := { envW with chainResult := fun _ => .error "boom" }

/-- An agent whose vector store and RAG chain are built, over the two-entry
index. -/
def stW : AgentState :=
  { initAgent 1000 200 with vector_store := some ⟨[docA, docB]⟩, rag_chain := some () }

/-- Every character position of a text whose length is at most the fuel is
covered by some window `splitGo` emits. -/
theorem splitGo_cover (csize cover : Nat) (h : cover < csize) :
    ∀ (fuel : Nat) (s : List Char), s.length ≤ fuel →
      ∀ i, i < s.length →
        ∃ w ∈ splitGo csize cover fuel s, ∃ j : Nat, w[j]? = s[i]? := by
  intro fuel
  induction fuel with
  | zero => intro s hs i hi; omega
  | succ fuel ih =>
    intro s hs i hi
    by_cases hle : s.length ≤ csize
    · refine ⟨s, ?_, i, rfl⟩
      simp [splitGo, hle]
    · by_cases hic : i < csize
      · refine ⟨s.take csize, ?_, i, ?_⟩
        · simp [splitGo, hle]
        · rw [List.getElem?_take]
          simp [hic]
      · have hlen : (s.drop (csize - cover)).length ≤ fuel := by
          rw [List.length_drop]; omega
        have hi2 : i - (csize - cover) < (s.drop (csize - cover)).length := by
          rw [List.length_drop]; omega
        obtain ⟨w, hw, j, hj⟩ := ih (s.drop (csize - cover)) hlen (i - (csize - cover)) hi2
        refine ⟨w, ?_, j, ?_⟩
        · have hunf : splitGo csize cover (fuel + 1) s =
              s.take csize :: splitGo csize cover fuel (s.drop (csize - cover)) := by
            simp [splitGo, hle]
          rw [hunf]
          exact List.mem_cons_of_mem _ hw
        · rw [hj, List.getElem?_drop]
          have hidx : csize - cover + (i - (csize - cover)) = i := by omega
          rw [hidx]

/-- `splitGo` never returns the empty chunk list on nonempty text. -/
theorem splitGo_ne_nil (csize cover fuel : Nat) (s : List Char) (hs : s ≠ []) :
    splitGo csize cover fuel s ≠ [] := by
  cases fuel with
  | zero => simp [splitGo, List.isEmpty_iff, hs]
  | succ fuel => by_cases hle : s.length ≤ csize <;> simp [splitGo, hle]

/-- A read operation leaves the agent state untouched. -/
theorem runOp_eq (env : Env) (st : AgentState) (o : Op) : runOp env st o = st := by
  cases o with
  | ask q =>
    unfold runOp ask_question
    by_cases hrc : st.rag_chain.isNone
    · simp [hrc]
    · simp only [hrc, if_false, Bool.false_eq_true]
      cases env.chainResult q <;> simp
  | search q k =>
    unfold runOp search_documents
    cases st.vector_store <;> simp
  | getStats => rfl

/-- A sequence of read operations leaves the agent state untouched. -/
theorem runOps_eq (env : Env) (st : AgentState) (ops : List Op) :
    runOps env st ops = st := by
  induction ops generalizing st with
  | nil => rfl
  | cons o ops ih =>
    show runOps env (runOp env st o) ops = st
    rw [runOp_eq, ih]

/-- A successful `initialize()` leaves the RAG chain built and the vector
store set. -/
theorem init_success_components (env : Env) (st : AgentState)
    (h : (initializeAgent env st).2.1 = none) :
    (initializeAgent env st).1.rag_chain = some () ∧
    ∃ idx, (initializeAgent env st).1.vector_store = some idx := by
  by_cases hd : env.dirExists = true
  · by_cases hp : env.pdfFiles = []
    · exfalso
      have hp2 := List.isEmpty_iff.mpr hp
      simp [initializeAgent, load_documents, hd, hp2] at h
    · have hp2 := List.isEmpty_eq_false.mpr hp
      cases hk : env.apiKey with
      | none =>
        exfalso
        cases hper : env.persisted <;>
          simp [initializeAgent, load_documents, hd, hp2, create_chunks, setup_embeddings,
            create_vector_store, setup_retriever, setup_llm, hk, hper] at h
      | some key =>
        by_cases hkey : key = ""
        · exfalso
          cases hper : env.persisted <;>
            simp [initializeAgent, load_documents, hd, hp2, create_chunks, setup_embeddings,
              create_vector_store, setup_retriever, setup_llm, hk, hkey, hper] at h
        · cases hper : env.persisted <;>
            simp [initializeAgent, load_documents, hd, hp2, create_chunks, setup_embeddings,
              create_vector_store, setup_retriever, setup_llm, hk, hkey, hper, create_rag_chain]
  · exfalso
    have hd2 : env.dirExists = false := by revert hd; cases env.dirExists <;> simp
    simp [initializeAgent, load_documents, hd2] at h

/-- C1 (counterexample): with a valid one-page PDF present, no persisted
index, and `OPENAI_API_KEY` absent, `initialize()` fails (in `setup_llm`,
mapped to the ConfigurationError of the spec taxonomy) — yet after the
failed `initialize()`, `search_documents` does NOT fail with
`InvalidStateError`: the vector store was already assigned by
`create_vector_store` before the failing step, and the search returns the
freshly embedded chunk.  This refutes the claim that after any failed
`initialize()` both `ask` and `search` still fail with `InvalidStateError`
and no partially-built component is usable. -/
theorem C1_counterexample :
    (initializeAgent envNoKey (initAgent 1000 200)).2.1 = some .configuration ∧
    (search_documents envNoKey (initializeAgent envNoKey (initAgent 1000 200)).1 "q" 3).2
      = .ok [docA] ∧
    ¬ ((search_documents envNoKey (initializeAgent envNoKey (initAgent 1000 200)).1 "q" 3).2
        = .error .invalidState) := by
  refine ⟨rfl, rfl, fun hcon => ?_⟩
  have hok : (search_documents envNoKey
      (initializeAgent envNoKey (initAgent 1000 200)).1 "q" 3).2 = .ok [docA] := rfl
  rw [hok] at hcon
  cases hcon

/-- C1 (amended): after any failed `initialize()` on a fresh agent,
`ask_question` still fails with `InvalidStateError` (the RAG chain is only
assigned by the final build step); `search_documents` still fails with
`InvalidStateError` when the failure happened in `load_documents` (missing
directory or no PDF files) — but not in general, since components assigned
before the failing step survive the failure. -/
theorem C1_failed_init_partial_state (env : Env) (csize cover : Nat) (e : AgentError)
    (h : (initializeAgent env (initAgent csize cover)).2.1 = some e) :
    (∀ q, (ask_question env (initializeAgent env (initAgent csize cover)).1 q).2
        = .error .invalidState) ∧
    ((env.dirExists = false ∨ env.pdfFiles = []) →
      ∀ q k, (search_documents env (initializeAgent env (initAgent csize cover)).1 q k).2
        = .error .invalidState) := by
  by_cases hd : env.dirExists = true
  · by_cases hp : env.pdfFiles = []
    · have hp2 := List.isEmpty_iff.mpr hp
      constructor
      · intro q
        simp [initializeAgent, load_documents, hd, hp2, ask_question, initAgent]
      · intro _ q k
        simp [initializeAgent, load_documents, hd, hp2, search_documents, initAgent]
    · have hp2 := List.isEmpty_eq_false.mpr hp
      cases hk : env.apiKey with
      | none =>
        constructor
        · intro q
          cases hper : env.persisted <;>
            simp [initializeAgent, load_documents, hd, hp2, create_chunks, setup_embeddings,
              create_vector_store, setup_retriever, setup_llm, hk, hper, ask_question, initAgent]
        · intro hor
          exfalso
          rcases hor with hdd | hpp
          · rw [hd] at hdd; cases hdd
          · exact hp hpp
      | some key =>
        by_cases hkey : key = ""
        · constructor
          · intro q
            cases hper : env.persisted <;>
              simp [initializeAgent, load_documents, hd, hp2, create_chunks, setup_embeddings,
                create_vector_store, setup_retriever, setup_llm, hk, hkey, hper,
                ask_question, initAgent]
          · intro hor
            exfalso
            rcases hor with hdd | hpp
            · rw [hd] at hdd; cases hdd
            · exact hp hpp
        · exfalso
          cases hper : env.persisted <;>
            simp [initializeAgent, load_documents, hd, hp2, create_chunks, setup_embeddings,
              create_vector_store, setup_retriever, setup_llm, hk, hkey, hper,
              create_rag_chain, hper] at h
  · have hd2 : env.dirExists = false := by revert hd; cases env.dirExists <;> simp
    constructor
    · intro q
      simp [initializeAgent, load_documents, hd2, ask_question, initAgent]
    · intro _ q k
      simp [initializeAgent, load_documents, hd2, search_documents, initAgent]

/-- Witness for the amended C1: with a missing data directory,
`initialize()` fails and both `ask_question` and `search_documents` fail
with `InvalidStateError` afterwards. -/
theorem C1_failed_init_partial_state_witness :
    (ask_question envNoDir (initializeAgent envNoDir (initAgent 1000 200)).1 "q").2
      = .error .invalidState ∧
    (search_documents envNoDir (initializeAgent envNoDir (initAgent 1000 200)).1 "q" 3).2
      = .error .invalidState :=
  ⟨(C1_failed_init_partial_state envNoDir 1000 200 .notFound rfl).1 "q",
   (C1_failed_init_partial_state envNoDir 1000 200 .notFound rfl).2 (Or.inl rfl) "q" 3⟩

/-- C2 (counterexample): with a valid one-page PDF, no persisted index and
`OPENAI_API_KEY` absent, `initialize()` does fail with the configuration
error, but the freshly computed chunk has already been embedded and stored
(`Chroma.from_documents` ran inside `create_vector_store`) before the
credential check in `setup_llm` — refuting the claim that no embedding of
chunks occurs prior to the failure. -/
theorem C2_counterexample :
    (initializeAgent envNoKey (initAgent 1000 200)).2.1 = some .configuration ∧
    (initializeAgent envNoKey (initAgent 1000 200)).2.2 = [Event.embedChunks 1] :=
  ⟨rfl, rfl⟩

/-- C2 (amended): for every run whose data directory holds at least one PDF
file and whose environment lacks `OPENAI_API_KEY`, `initialize()` fails
with the configuration error, but only after the build of the vector
store: when no persisted index exists, the freshly computed chunks are
embedded and stored before the failure — the credential check is not
fail-fast. -/
theorem C2_config_error_after_embedding (env : Env) (csize cover : Nat)
    (hd : env.dirExists = true) (hp : env.pdfFiles ≠ []) (hk : env.apiKey = none) :
    (initializeAgent env (initAgent csize cover)).2.1 = some .configuration ∧
    (env.persisted = none →
      (initializeAgent env (initAgent csize cover)).2.2 =
        [Event.embedChunks (splitDocuments csize cover env.pdfFiles.flatten).length]) := by
  have hp2 := List.isEmpty_eq_false.mpr hp
  constructor
  · cases hper : env.persisted <;>
      simp [initializeAgent, load_documents, hd, hp2, create_chunks, setup_embeddings,
        create_vector_store, setup_retriever, setup_llm, hk, hper]
  · intro hper
    simp [initializeAgent, load_documents, hd, hp2, create_chunks, setup_embeddings,
      create_vector_store, setup_retriever, setup_llm, hk, hper, initAgent]

/-- Witness for the amended C2 at a concrete environment. -/
theorem C2_config_error_after_embedding_witness :
    (initializeAgent envNoKey (initAgent 1000 200)).2.1 = some .configuration ∧
    (initializeAgent envNoKey (initAgent 1000 200)).2.2 =
      [Event.embedChunks (splitDocuments 1000 200 envNoKey.pdfFiles.flatten).length] :=
  ⟨(C2_config_error_after_embedding envNoKey 1000 200 rfl (by decide) rfl).1,
   (C2_config_error_after_embedding envNoKey 1000 200 rfl (by decide) rfl).2 rfl⟩

/-- C3: for chunk parameters with chunk_overlap < chunk_size, every
character position of the input text appears in at least one chunk of the
splitter output (full coverage), and the output is the empty chunk list
exactly when the input text is empty. -/
theorem C3_chunker_coverage (csize cover : Nat) (h : cover < csize) (s : List Char) :
    (∀ i, i < s.length →
      ∃ w ∈ splitText csize cover s, ∃ j : Nat, w[j]? = s[i]?) ∧
    (splitText csize cover s = [] ↔ s = []) := by
  constructor
  · intro i hi
    have hne : s ≠ [] := by
      intro he
      rw [he] at hi
      simp at hi
    have hrw : splitText csize cover s = splitGo csize cover s.length s := by
      simp [splitText, List.isEmpty_iff, hne]
    rw [hrw]
    exact splitGo_cover csize cover h s.length s le_rfl i hi
  · constructor
    · intro he
      by_contra hne
      have hrw : splitText csize cover s = splitGo csize cover s.length s := by
        simp [splitText, List.isEmpty_iff, hne]
      rw [hrw] at he
      exact splitGo_ne_nil csize cover s.length s hne he
    · intro he
      rw [he]
      simp [splitText]

/-- Witness for C3: position 3 of a four-character text is covered by a
chunk produced with chunk_size 3, chunk_overlap 1. -/
theorem C3_chunker_coverage_witness :
    ∃ w ∈ splitText 3 1 ['a', 'b', 'c', 'd'],
      ∃ j : Nat, w[j]? = (['a', 'b', 'c', 'd'] : List Char)[3]? :=
  (C3_chunker_coverage 3 1 (by decide) ['a', 'b', 'c', 'd']).1 3 (by decide)

/-- C4: the similarity query over the vector index returns at most `k`
results, each paired with its similarity score, sorted in non-increasing
score order; `search_documents` on an agent with a built vector store
returns exactly those results with the scores stripped. -/
theorem C4_search_sorted (env : Env) (st : AgentState) (idx : VIndex)
    (hst : st.vector_store = some idx) (q : String) (k : Nat) :
    (idx.query (env.score q) k).length ≤ k ∧
    List.Sorted scoreGE (idx.query (env.score q) k) ∧
    (∀ r ∈ idx.query (env.score q) k, ∃ d sc, r = (d, sc)) ∧
    (search_documents env st q k).2 = .ok ((idx.query (env.score q) k).map Prod.fst) := by
  refine ⟨?_, ?_, ?_, ?_⟩
  · rw [VIndex.query, List.length_take]
    exact min_le_left _ _
  · exact List.Pairwise.sublist (List.take_sublist _ _) (List.sorted_insertionSort _ _)
  · intro r _
    exact ⟨r.1, r.2, rfl⟩
  · simp [search_documents, hst]

/-- Witness for C4 on a two-entry index with distinct scores. -/
theorem C4_search_sorted_witness :
    ((⟨[docA, docB]⟩ : VIndex).query (envW.score "q") 3).length ≤ 3 ∧
    List.Sorted scoreGE ((⟨[docA, docB]⟩ : VIndex).query (envW.score "q") 3) ∧
    (search_documents envW stW "q" 3).2 =
      .ok (((⟨[docA, docB]⟩ : VIndex).query (envW.score "q") 3).map Prod.fst) :=
  ⟨(C4_search_sorted envW stW ⟨[docA, docB]⟩ rfl "q" 3).1,
   (C4_search_sorted envW stW ⟨[docA, docB]⟩ rfl "q" 3).2.1,
   (C4_search_sorted envW stW ⟨[docA, docB]⟩ rfl "q" 3).2.2.2⟩

/-- C5: `create_vector_store` is reuse-idempotent at the storage location —
when persisted index data already exists there, it loads that index as is,
emits no embedding event, and its whole result is independent of the
supplied chunks; when nothing is persisted, it builds a new index from
exactly the supplied chunks (embedding them). -/
theorem C5_store_reuse (env : Env) (st : AgentState) (chunks other : List Doc) :
    (∀ idx, env.persisted = some idx →
      (create_vector_store env st chunks).1.vector_store = some idx ∧
      (create_vector_store env st chunks).2 = [] ∧
      (create_vector_store env st chunks).1 = (create_vector_store env st other).1) ∧
    (env.persisted = none →
      (create_vector_store env st chunks).1.vector_store = some ⟨chunks⟩ ∧
      (create_vector_store env st chunks).2 = [Event.embedChunks chunks.length]) := by
  constructor
  · intro idx hper
    refine ⟨?_, ?_, ?_⟩ <;> simp [create_vector_store, hper]
  · intro hper
    constructor <;> simp [create_vector_store, hper]

/-- Witness for C5: with a persisted one-entry index, the build loads it
and embeds nothing. -/
theorem C5_store_reuse_witness :
    (create_vector_store envPer (initAgent 1000 200) [docA]).1.vector_store
      = some ⟨[docB]⟩ ∧
    (create_vector_store envPer (initAgent 1000 200) [docA]).2 = [] :=
  ⟨((C5_store_reuse envPer (initAgent 1000 200) [docA] []).1 ⟨[docB]⟩ rfl).1,
   ((C5_store_reuse envPer (initAgent 1000 200) [docA] []).1 ⟨[docB]⟩ rfl).2.1⟩

/-- C6: `load_documents` fails — and then precisely with the not-found
error — if and only if the data directory does not exist or contains no
PDF files; for a directory holding at least one valid PDF (a valid PDF has
at least one page), it returns at least one document. -/
theorem C6_loader (env : Env) (st : AgentState) :
    (load_documents env st = .error .notFound ↔
      (env.dirExists = false ∨ env.pdfFiles = [])) ∧
    (env.dirExists = true → env.pdfFiles ≠ [] → (∀ f ∈ env.pdfFiles, f ≠ []) →
      ∃ st2 docs, load_documents env st = .ok (st2, docs) ∧ docs ≠ []) := by
  constructor
  · constructor
    · intro he
      by_contra hcon
      push_neg at hcon
      obtain ⟨hd, hp⟩ := hcon
      have hd2 : env.dirExists = true := by
        revert hd; cases env.dirExists <;> simp
      have hp2 := List.isEmpty_eq_false.mpr hp
      simp [load_documents, hd2, hp2] at he
    · intro hor
      rcases hor with hd | hp
      · simp [load_documents, hd]
      · by_cases hd : env.dirExists = true
        · simp [load_documents, hd, List.isEmpty_iff.mpr hp]
        · have hd2 : env.dirExists = false := by
            revert hd; cases env.dirExists <;> simp
          simp [load_documents, hd2]
  · intro hd hp hf
    have hp2 := List.isEmpty_eq_false.mpr hp
    refine ⟨{ st with stats := { st.stats with
        documents_loaded := env.pdfFiles.flatten.length } },
      env.pdfFiles.flatten, ?_, ?_⟩
    · simp [load_documents, hd, hp2]
    · intro hnil
      rw [List.flatten_eq_nil_iff] at hnil
      cases hps : env.pdfFiles with
      | nil => exact hp hps
      | cons f t =>
        refine hf f ?_ (hnil f ?_) <;> rw [hps] <;> exact List.mem_cons_self f t

/-- Witness for C6 at a directory holding two one-page PDF files. -/
theorem C6_loader_witness :
    ∃ st2 docs, load_documents envW (initAgent 1000 200) = .ok (st2, docs) ∧ docs ≠ [] :=
  (C6_loader envW (initAgent 1000 200)).2 rfl (by decide) (by decide)

/-- C7 (counterexample): the claim quantifies over every agent on which
`initialize()` has not been successfully run — which includes agents whose
`initialize()` failed.  With a valid one-page PDF, no persisted index, and
`OPENAI_API_KEY` absent, `initialize()` fails (so it was not successfully
run), yet `search_documents` on that agent returns the embedded chunk
rather than failing with `InvalidStateError`: the vector store was already
assigned by `create_vector_store` before `setup_llm` raised. -/
theorem C7_counterexample :
    (initializeAgent envNoKey (initAgent 1000 200)).2.1 ≠ none ∧
    (search_documents envNoKey (initializeAgent envNoKey (initAgent 1000 200)).1 "query" 2).2
      = .ok [docA] ∧
    ¬ ((search_documents envNoKey (initializeAgent envNoKey (initAgent 1000 200)).1 "query" 2).2
        = .error .invalidState) := by
  refine ⟨fun hnone => ?_, rfl, fun hcon => ?_⟩
  · have hcfg : (initializeAgent envNoKey (initAgent 1000 200)).2.1
        = some AgentError.configuration := rfl
    rw [hcfg] at hnone
    cases hnone
  · have hok : (search_documents envNoKey
        (initializeAgent envNoKey (initAgent 1000 200)).1 "query" 2).2 = .ok [docA] := rfl
    rw [hok] at hcon
    cases hcon

/-- C7 (amended): on a fresh agent — one on which `initialize()` has not
been called at all — both `ask_question` and `search_documents` fail with
`InvalidStateError`; after a successful `initialize()`, both return a
value for any input.  (After a failed `initialize()` the guarantee narrows
to `ask_question`: see the C1 development.) -/
theorem C7_state_machine (env : Env) (csize cover : Nat) (q1 q2 : String) (k : Nat) :
    (ask_question env (initAgent csize cover) q1).2 = .error .invalidState ∧
    (search_documents env (initAgent csize cover) q2 k).2 = .error .invalidState ∧
    ((initializeAgent env (initAgent csize cover)).2.1 = none →
      (∃ a, (ask_question env (initializeAgent env (initAgent csize cover)).1 q1).2 = .ok a) ∧
      (∃ rs, (search_documents env (initializeAgent env (initAgent csize cover)).1 q2 k).2
        = .ok rs)) := by
  refine ⟨?_, ?_, ?_⟩
  · simp [ask_question, initAgent]
  · simp [search_documents, initAgent]
  · intro h
    obtain ⟨hrc, idx, hvs⟩ := init_success_components env (initAgent csize cover) h
    constructor
    · cases hc : env.chainResult q1 with
      | ok a => exact ⟨a, by simp [ask_question, hrc, hc]⟩
      | error e => exact ⟨"Error processing question: " ++ e, by simp [ask_question, hrc, hc]⟩
    · exact ⟨(idx.query (env.score q2) k).map Prod.fst, by simp [search_documents, hvs]⟩

/-- Witness for C7: the two `InvalidStateError` failures on a fresh agent,
and both operations succeeding after a successful `initialize()` in a
well-formed environment. -/
theorem C7_state_machine_witness :
    (ask_question envW (initAgent 1000 200) "q").2 = .error .invalidState ∧
    (∃ a, (ask_question envW (initializeAgent envW (initAgent 1000 200)).1 "q").2 = .ok a) ∧
    (∃ rs, (search_documents envW (initializeAgent envW (initAgent 1000 200)).1 "r" 3).2
      = .ok rs) :=
  ⟨(C7_state_machine envW 1000 200 "q" "r" 3).1,
   ((C7_state_machine envW 1000 200 "q" "r" 3).2.2 rfl).1,
   ((C7_state_machine envW 1000 200 "q" "r" 3).2.2 rfl).2⟩

/-- C8: after a successful `initialize()`, `ask_question` never raises —
it always returns an answer string, and when the underlying RAG chain
raises, the returned string embeds the error message after the fixed
prefix. -/
theorem C8_ask_never_raises (env : Env) (csize cover : Nat)
    (h : (initializeAgent env (initAgent csize cover)).2.1 = none) (q : String) :
    ∃ a, (ask_question env (initializeAgent env (initAgent csize cover)).1 q).2 = .ok a ∧
      (∀ e, env.chainResult q = .error e → a = "Error processing question: " ++ e) := by
  obtain ⟨hrc, -⟩ := init_success_components env (initAgent csize cover) h
  cases hc : env.chainResult q with
  | ok a =>
    refine ⟨a, by simp [ask_question, hrc, hc], fun e he => ?_⟩
    cases he
  | error e =>
    refine ⟨"Error processing question: " ++ e, by simp [ask_question, hrc, hc], fun e2 he2 => ?_⟩
    cases he2
    rfl

/-- Witness for C8: the chain raises "boom"; `ask_question` still returns
an answer, embedding the message. -/
theorem C8_ask_never_raises_witness :
    ∃ a, (ask_question envErr (initializeAgent envErr (initAgent 1000 200)).1 "q").2 = .ok a ∧
      (∀ e, envErr.chainResult "q" = .error e → a = "Error processing question: " ++ e) :=
  C8_ask_never_raises envErr 1000 200 rfl "q"

/-- C9: the statistics record is untouched by any sequence of
`ask_question`, `search_documents` and `get_stats` calls; and since
`get_stats` returns `stats.copy()` — in this embedding a value detached
from the agent record — later calls return the same statistics no matter
what the caller does with an earlier returned copy. -/
theorem C9_stats_frame (env : Env) (st : AgentState) (ops : List Op) :
    (runOps env st ops).stats = st.stats ∧
    (get_stats (runOps env st ops)).2 = (get_stats st).2 := by
  rw [runOps_eq]
  exact ⟨rfl, rfl⟩

/-- C10: `initialize()` loads documents and computes chunks from the
current data directory before consulting the persisted vector store: even
when a persisted index is reused, the recorded statistics reflect the
present directory contents, the loaded index is exactly the persisted one
(the fresh chunks are never added to it), and no embedding event occurs
(the fresh chunks are discarded unembedded). -/
theorem C10_fresh_stats_on_reuse (env : Env) (csize cover : Nat) (idx : VIndex)
    (hd : env.dirExists = true) (hp : env.pdfFiles ≠ [])
    (hper : env.persisted = some idx) :
    (initializeAgent env (initAgent csize cover)).1.stats.documents_loaded
      = env.pdfFiles.flatten.length ∧
    (initializeAgent env (initAgent csize cover)).1.stats.chunks_created
      = (splitDocuments csize cover env.pdfFiles.flatten).length ∧
    (initializeAgent env (initAgent csize cover)).1.vector_store = some idx ∧
    (initializeAgent env (initAgent csize cover)).2.2 = [] := by
  have hp2 := List.isEmpty_eq_false.mpr hp
  cases hk : env.apiKey with
  | none =>
    refine ⟨?_, ?_, ?_, ?_⟩ <;>
      simp [initializeAgent, load_documents, hd, hp2, create_chunks, setup_embeddings,
        create_vector_store, setup_retriever, setup_llm, hk, hper, initAgent]
  | some key =>
    by_cases hkey : key = ""
    · refine ⟨?_, ?_, ?_, ?_⟩ <;>
        simp [initializeAgent, load_documents, hd, hp2, create_chunks, setup_embeddings,
          create_vector_store, setup_retriever, setup_llm, hk, hkey, hper, initAgent]
    · refine ⟨?_, ?_, ?_, ?_⟩ <;>
        simp [initializeAgent, load_documents, hd, hp2, create_chunks, setup_embeddings,
          create_vector_store, setup_retriever, setup_llm, hk, hkey, hper,
          create_rag_chain, initAgent]

/-- Witness for C10: two one-page PDF files are loaded and chunked while
the persisted one-entry index is reused unchanged. -/
theorem C10_fresh_stats_on_reuse_witness :
    (initializeAgent envPer (initAgent 1000 200)).1.stats.documents_loaded = 2 ∧
    (initializeAgent envPer (initAgent 1000 200)).1.vector_store = some ⟨[docB]⟩ ∧
    (initializeAgent envPer (initAgent 1000 200)).2.2 = [] :=
  ⟨(C10_fresh_stats_on_reuse envPer 1000 200 ⟨[docB]⟩ rfl (by decide) rfl).1,
   (C10_fresh_stats_on_reuse envPer 1000 200 ⟨[docB]⟩ rfl (by decide) rfl).2.2.1,
   (C10_fresh_stats_on_reuse envPer 1000 200 ⟨[docB]⟩ rfl (by decide) rfl).2.2.2⟩
